import Mathlib

/-!
Shallow embedding of the core data model and operations of the
12bytes-gifter repository (Django app with `accounts` and `gifter` modules).

Sources embedded here:
  * `src/accounts/models.py` — `Family` (parent slots, `assign_parent_slot`,
    the `family_parent1_not_equal_parent2_or_null` check constraint) and
    `Profile` (`is_parent`, `is_complete`, `can_view_purchase_info_for`,
    `can_edit_profile`, `next_birthday_date`, `next_anniversary_date`).
  * `src/gifter/models.py` — `WishlistItem` (`can_parent_claim`, `claim`,
    `unclaim`).
  * `src/gifter/views.py` — `_next_occurrence`.

Conventions: Python `datetime.date` is modelled by `PyDate` (year/month/day
as naturals, compared lexicographically, which agrees with chronological
order on valid dates); `date.replace` raising `ValueError` on an invalid
day-of-month is modelled with `Except Unit`.  Django model instances compare
equal exactly when their primary keys agree, so profile comparisons
(`claimed_by != viewer_profile`) are by `pk`.  Methods that mutate `self`
in place and may `raise PermissionError` become functions returning
`Except String` of the updated record.  `timezone.now()` is passed in as an
explicit `now : Nat` timestamp.
-/

/-- A Python `datetime.date`: the stored year, month and day. -/
structure PyDate where
  year : Nat
  month : Nat
  day : Nat
deriving DecidableEq, Repr

/-- Python/Gregorian leap-year rule (`calendar.isleap`). -/
def isleap (y : Nat) : Bool :=
  y % 4 == 0 && (y % 100 != 0 || y % 400 == 0)

/-- Number of days in a month of a given year. -/
def days_in_month (y m : Nat) : Nat :=
  if m == 2 then (if isleap y then 29 else 28)
  else if m == 4 || m == 6 || m == 9 || m == 11 then 30
  else 31

/-- Python date comparison `a < b` (lexicographic on year, month, day). -/
def PyDate.ltb (a b : PyDate) : Bool :=
  a.year < b.year ||
    (a.year == b.year &&
      (a.month < b.month || (a.month == b.month && a.day < b.day)))

/-- Python `d.replace(year=y)`: keeps month and day, raises `ValueError`
(modelled as `Except.error ()`) when the day does not exist in that month of
year `y` — the February 29 in a non-leap year case. -/
def PyDate.replace_year (d : PyDate) (y : Nat) : Except Unit PyDate :=
  if d.day ≤ days_in_month y d.month then .ok ⟨y, d.month, d.day⟩
  else .error ()

/-- Python `d.replace(year=y, day=dy)`: keeps the month, raises `ValueError`
when day `dy` does not exist in that month of year `y`. -/
def PyDate.replace_year_day (d : PyDate) (y dy : Nat) : Except Unit PyDate :=
  if dy ≤ days_in_month y d.month then .ok ⟨y, d.month, dy⟩
  else .error ()

/-- The `Profile` model of `src/accounts/models.py`, restricted to the fields
the verified operations read.  `pk` is the profile's own primary key,
`user_id` the key of the linked auth user; `first_name`, `last_name` and
`email` live on the linked user in the source (`self.user.first_name`, …).
`family` holds the id of the referenced `Family` row, if any.
`has_avatar_upload` models the truthiness of the `avatar_upload` file field. -/
structure Profile where
  pk : Nat
  user_id : Nat
  family : Option Nat
  role : String
  first_name : String
  last_name : String
  email : String
  avatar_source : String
  avatar_library_filename : String
  has_avatar_upload : Bool
  birthday : Option PyDate
  anniversary : Option PyDate
deriving DecidableEq, Repr

/-- `Profile.is_parent`: `self.role == self.ROLE_PARENT`. -/
def Profile.is_parent (p : Profile) : Bool :=
  p.role == "Parent"

/-- `Profile.is_complete` (`src/accounts/models.py` lines 196–205):
false when first name, last name or email is empty; otherwise checks the
field matching `avatar_source` (`upload` needs an uploaded file, `library`
needs a library filename, anything else — the `default` source — passes). -/
def Profile.is_complete (p : Profile) : Bool :=
  if p.first_name == "" || p.last_name == "" || p.email == "" then false
  else if p.avatar_source == "upload" then p.has_avatar_upload
  else if p.avatar_source == "library" then p.avatar_library_filename != ""
  else true

/-- `Profile.can_view_purchase_info_for` (lines 217–224): parents see
purchase info for everyone except themselves; children never do. -/
def Profile.can_view_purchase_info_for (self target : Profile) : Bool :=
  if !self.is_parent then false
  else target.user_id != self.user_id

/-- `Profile.can_edit_profile` (lines 226–234): a Parent can edit anyone in
the system (the source comment says "adjust if you want to restrict to
family"); otherwise only self-edit (same linked user id). -/
def Profile.can_edit_profile (self target : Profile) : Bool :=
  if self.is_parent then true
  else self.user_id == target.user_id

/-- `Profile.next_birthday_date` (lines 255–262): move the stored birthday
into `today`'s year with `date.replace`, and if that date is already past,
into the following year.  Either `replace` propagates `ValueError`. -/
def Profile.next_birthday_date (p : Profile) (today : PyDate) :
    Except Unit (Option PyDate) :=
  match p.birthday with
  | none => .ok none
  | some b =>
    match b.replace_year today.year with
    | .error e => .error e
    | .ok next_dt =>
      if next_dt.ltb today then
        match next_dt.replace_year (today.year + 1) with
        | .error e => .error e
        | .ok next_dt2 => .ok (some next_dt2)
      else .ok (some next_dt)

/-- `Profile.next_anniversary_date` (lines 264–271): same algorithm as
`next_birthday_date`, applied to the stored anniversary. -/
def Profile.next_anniversary_date (p : Profile) (today : PyDate) :
    Except Unit (Option PyDate) :=
  match p.anniversary with
  | none => .ok none
  | some a =>
    match a.replace_year today.year with
    | .error e => .error e
    | .ok next_dt =>
      if next_dt.ltb today then
        match next_dt.replace_year (today.year + 1) with
        | .error e => .error e
        | .ok next_dt2 => .ok (some next_dt2)
      else .ok (some next_dt)

/-- The view helper `_next_occurrence` (`src/gifter/views.py` lines 465–473).
The first `replace` is wrapped in `try/except ValueError` with the fallback
`d.replace(year=today.year, day=28)` ("Feb 29 safety"); the year-rollover
`this_year.replace(year=today.year + 1)` on the last line is OUTSIDE the
`try` block, so a `ValueError` raised there propagates. -/
def next_occurrence (d : Option PyDate) (today : PyDate) :
    Except Unit (Option PyDate) :=
  match d with
  | none => .ok none
  | some d0 =>
    match (match d0.replace_year today.year with
           | .ok x => Except.ok x
           | .error _ => d0.replace_year_day today.year 28) with
    | .error e => .error e
    | .ok this_year =>
      if !this_year.ltb today then .ok (some this_year)
      else
        match this_year.replace_year (today.year + 1) with
        | .error e => .error e
        | .ok rolled => .ok (some rolled)

/-- The `Family` model of `src/accounts/models.py`, restricted to its two
parent slots.  `parent1` and `parent2` hold ids of the referenced auth
users (`parent1_id` / `parent2_id` in the source), `none` when the slot is
open.  Display name, slug and timestamps are not consulted by any verified
operation. -/
structure Family where
  parent1 : Option Nat
  parent2 : Option Nat
deriving DecidableEq, Repr

/-- The database check constraint
`family_parent1_not_equal_parent2_or_null` (lines 60–66):
`~Q(parent1=F("parent2")) | Q(parent1__isnull=True) | Q(parent2__isnull=True)`
— the same user may not occupy both parent slots unless a slot is NULL. -/
def Family.slots_ok (f : Family) : Bool :=
  f.parent1 != f.parent2 || f.parent1 == none || f.parent2 == none

/-- `Family.assign_parent_slot` (lines 105–117), the in-memory check-and-set
performed under the row lock: fill `parent1` if open; else fill `parent2`
if open and the candidate is not already `parent1`; else leave both slots
unchanged.  (The subsequent `fam.save` is subject to `Family.slots_ok`.) -/
def Family.assign_parent_slot (f : Family) (u : Nat) : Family :=
  if f.parent1 == none then { f with parent1 := some u }
  else if f.parent2 == none && f.parent1 != some u then { f with parent2 := some u }
  else f

/-- The `WishlistItem` model of `src/gifter/models.py`, restricted to the
fields the verified operations read or write.  `has_image` models the
truthiness of the `image` file field and `price_estimate` the optional
decimal as a scaled integer; `claimed_at` / `purchased_at` are opaque
timestamps. -/
structure WishlistItem where
  profile : Profile
  title : String
  description : String
  link : String
  price_estimate : Option Int
  has_image : Bool
  is_claimed : Bool
  claimed_by : Option Profile
  claimed_at : Option Nat
  is_purchased : Bool
  purchased_by : Option Profile
  purchased_at : Option Nat
deriving DecidableEq, Repr

/-- `WishlistItem.can_parent_claim` (lines 112–124): only Parent profiles,
and not when the item is already claimed by a different profile
(`self.is_claimed and self.claimed_by and self.claimed_by != viewer_profile`,
profile comparison by primary key). -/
def WishlistItem.can_parent_claim (w : WishlistItem) (viewer : Profile) : Bool :=
  if !viewer.is_parent then false
  else if w.is_claimed && (match w.claimed_by with
                           | some c => c.pk != viewer.pk
                           | none => false) then false
  else true

/-- `WishlistItem.claim` (lines 126–137): guarded by `can_parent_claim`;
on success sets `is_claimed`, `claimed_by`, and `claimed_at` only when it
was not already set (`if not self.claimed_at`). -/
def WishlistItem.claim (w : WishlistItem) (viewer : Profile) (now : Nat) :
    Except String WishlistItem :=
  if !w.can_parent_claim viewer then
    .error "You are not allowed to claim this item."
  else
    .ok { w with
          is_claimed := true
          claimed_by := some viewer
          claimed_at := match w.claimed_at with
                        | none => some now
                        | some t => some t }

/-- `WishlistItem.unclaim` (lines 139–154): only parents; rejected when the
item is claimed by someone else and the actor cannot edit the owner's
profile; on success clears `is_claimed` and `claimed_by` (and nothing
else — `claimed_at` is kept). -/
def WishlistItem.unclaim (w : WishlistItem) (viewer : Profile) :
    Except String WishlistItem :=
  if !viewer.is_parent then
    .error "Only parents can unclaim."
  else if (match w.claimed_by with
           | some c => c.pk != viewer.pk && !viewer.can_edit_profile w.profile
           | none => false) then
    .error "You cannot unclaim this item."
  else
    .ok { w with is_claimed := false, claimed_by := none }

/-- Decidable success test for `Except` results. -/
def exceptOk {ε α : Type} : Except ε α → Bool
  | .ok _ => true
  | .error _ => false

/-- The claim-state invariant of §3 of the spec: a claimed item has a
(single) non-null claimer. -/
def WishlistItem.claim_inv (w : WishlistItem) : Bool :=
  !w.is_claimed || (match w.claimed_by with
                    | some _ => true
                    | none => false)

/-! ### Sample data used by witnesses -/

/-- A Parent profile in family 1. -/
def alice : Profile :=
  ⟨1, 1, some 1, "Parent", "Alice", "Ash", "alice@x", "default", "", false, none, none⟩

/-- A Parent profile in family 2 (unrelated to family 1). -/
def paula : Profile :=
  ⟨2, 2, some 2, "Parent", "Paula", "Pine", "paula@x", "default", "", false, none, none⟩

/-- A Child profile in family 1. -/
def kid : Profile :=
  ⟨3, 3, some 1, "Child", "Kim", "Ash", "kim@x", "default", "", false, none, none⟩

/-- An unclaimed wishlist item owned by `kid`. -/
def bike : WishlistItem :=
  ⟨kid, "Bike", "", "", none, false, false, none, none, false, none, none⟩

/-- `bike` after a successful `claim` by `alice` at time 5. -/
def bike_claimed : WishlistItem :=
  { bike with is_claimed := true, claimed_by := some alice, claimed_at := some 5 }

/-- `bike_claimed` after a successful `unclaim` (timestamp kept). -/
def bike_unclaimed : WishlistItem :=
  { bike_claimed with is_claimed := false, claimed_by := none }

/-! ### Helper lemmas on the claim and unclaim transitions -/

/-- A successful `claim` means the permission check passed and pins down the
resulting record. -/
theorem claim_eq_ok (w : WishlistItem) (v : Profile) (n : Nat) (w1 : WishlistItem)
    (h : w.claim v n = .ok w1) :
    w.can_parent_claim v = true ∧
    w1 = { w with is_claimed := true, claimed_by := some v,
                  claimed_at := match w.claimed_at with
                                | none => some n
                                | some t => some t } := by
  unfold WishlistItem.claim at h
  cases hc : w.can_parent_claim v with
  | true => simp [hc] at h; exact ⟨rfl, h.symm⟩
  | false => simp [hc] at h

/-- A successful `unclaim` means the actor is a parent and pins down the
resulting record. -/
theorem unclaim_eq_ok (w : WishlistItem) (v : Profile) (w2 : WishlistItem)
    (h : w.unclaim v = .ok w2) :
    v.is_parent = true ∧ w2 = { w with is_claimed := false, claimed_by := none } := by
  unfold WishlistItem.unclaim at h
  cases hp : v.is_parent with
  | true =>
    simp [hp] at h
    cases hg : (match w.claimed_by with
                | some c => c.pk != v.pk && !v.can_edit_profile w.profile
                | none => false) with
    | true => rw [hg] at h; simp at h
    | false => rw [hg] at h; simp at h; exact ⟨rfl, h.symm⟩
  | false => simp [hp] at h

/-- Only parents pass `can_parent_claim`. -/
theorem can_parent_claim_is_parent (w : WishlistItem) (v : Profile)
    (h : w.can_parent_claim v = true) : v.is_parent = true := by
  unfold WishlistItem.can_parent_claim at h
  cases hp : v.is_parent with
  | true => rfl
  | false => simp [hp] at h

/-! ### C1 — who may edit a profile -/

/-- Modelled from the spec's words, for comparison with the source's
`Profile.can_edit_profile`: "true if `viewer == target` (self-edit always
allowed), OR viewer is a Parent and target is a Child in the same family.
All other combinations false." -/
def can_edit_profile_spec (viewer target : Profile) : Bool :=
  viewer.pk == target.pk ||
    (viewer.is_parent && target.role == "Child" &&
      viewer.family == target.family && viewer.family != none)

/-- C1 counterexample: `paula` is a Parent in family 2 and `kid` a Child in
family 1 (the spec's "Parent P2, different family" scenario).  The source's
`can_edit_profile` returns true for this pair, while the claimed
characterisation (self-edit or parent-of-child-in-same-family) is false. -/
theorem can_edit_profile_cross_family_counterexample :
    Profile.can_edit_profile paula kid = true ∧
    can_edit_profile_spec paula kid = false := by
  constructor <;> rfl

/-- C1 (amended): `can_edit_profile(viewer, target)` returns true iff the
viewer's role is Parent or viewer and target are the same user; the target's
role and the family memberships are never consulted, so a Parent can edit a
target in a different family. -/
theorem can_edit_profile_parent_or_self (viewer target : Profile) :
    viewer.can_edit_profile target =
      (viewer.is_parent || viewer.user_id == target.user_id) := by
  unfold Profile.can_edit_profile
  cases hp : viewer.is_parent <;> simp [hp]

/-! ### C3 — who may view purchase info -/

/-- C3: `can_view_purchase_info_for(viewer, target)` is true iff the viewer
is a Parent and viewer and target are different users; hence it is false for
every Child viewer and for a Parent viewing themselves. -/
theorem can_view_purchase_info_parent_not_self (viewer target : Profile) :
    viewer.can_view_purchase_info_for target =
      (viewer.is_parent && viewer.user_id != target.user_id) := by
  unfold Profile.can_view_purchase_info_for
  cases hp : viewer.is_parent <;> simp [hp]
  rw [Bool.eq_iff_iff]
  simp [bne_iff_ne]
  exact ne_comm

/-! ### C9 — profile completeness -/

/-- Modelled from the spec's words, for comparison with the source's
`Profile.is_complete`: "true iff first name, last name, email are all set
AND the avatar configuration is consistent — uploaded file present if
source=upload, library filename present if source=library, otherwise always
true for default." -/
def is_complete_spec (p : Profile) : Bool :=
  p.first_name != "" && p.last_name != "" && p.email != "" &&
    (if p.avatar_source == "upload" then p.has_avatar_upload
     else if p.avatar_source == "library" then p.avatar_library_filename != ""
     else true)

/-- C9: `is_complete` is false whenever first name, last name or email is
empty, regardless of the avatar fields, and otherwise is true iff the avatar
configuration is consistent — it agrees with the spec's characterisation on
every profile. -/
theorem is_complete_matches_spec (p : Profile) :
    p.is_complete = is_complete_spec p := by
  unfold Profile.is_complete is_complete_spec
  by_cases h1 : p.first_name = "" <;> by_cases h2 : p.last_name = "" <;>
    by_cases h3 : p.email = "" <;> by_cases h4 : p.avatar_source = "upload" <;>
      by_cases h5 : p.avatar_source = "library" <;> simp_all

/-! ### C10 — a Parent can always unclaim -/

/-- C10: for a Parent actor, `unclaim` never raises: the permission branch
is unreachable because `can_edit_profile` returns true for every Parent
viewer, so any Parent — related to the claimer and owner or not — unclaims
any item, clearing `is_claimed` and `claimed_by`. -/
theorem parent_unclaim_never_raises (w : WishlistItem) (v : Profile)
    (hv : v.is_parent = true) :
    w.unclaim v = .ok { w with is_claimed := false, claimed_by := none } := by
  unfold WishlistItem.unclaim
  cases hcb : w.claimed_by with
  | none => simp [hv]
  | some c => simp [hv, hcb, Profile.can_edit_profile]

/-- Witness for C10: `paula` (a Parent from a different family than the
claimer `alice` and the owner `kid`) unclaims the claimed `bike`. -/
theorem parent_unclaim_never_raises_witness :
    bike_claimed.unclaim paula =
      .ok { bike_claimed with is_claimed := false, claimed_by := none } :=
  parent_unclaim_never_raises bike_claimed paula (by decide)

/-! ### C2 — claim exclusivity -/

/-- C2: once `a` has successfully claimed an item, a claim by any different
profile `b` fails (with the permission error) until `a` unclaims — after the
unclaim a Parent `b` succeeds — and `claim` always fails for an actor whose
role is not Parent. -/
theorem claim_exclusive_until_unclaim
    (w w1 w2 x : WishlistItem) (a b c : Profile) (t1 t2 t3 t4 : Nat)
    (hne : b.pk ≠ a.pk) (hb : b.is_parent = true) (hc : c.is_parent = false)
    (h1 : w.claim a t1 = .ok w1) (hu : w1.unclaim a = .ok w2) :
    exceptOk (w1.claim b t2) = false ∧
    exceptOk (w2.claim b t3) = true ∧
    exceptOk (x.claim c t4) = false := by
  obtain ⟨hca, hw1⟩ := claim_eq_ok w a t1 w1 h1
  obtain ⟨hpa, hw2⟩ := unclaim_eq_ok w1 a w2 hu
  subst hw2; subst hw1
  refine ⟨?_, ?_, ?_⟩
  · simp [WishlistItem.claim, WishlistItem.can_parent_claim, exceptOk, hb,
      bne_iff_ne, Ne.symm hne]
  · simp [WishlistItem.claim, WishlistItem.can_parent_claim, exceptOk, hb]
  · simp [WishlistItem.claim, WishlistItem.can_parent_claim, exceptOk, hc]

/-- Witness for C2: `alice` claims `bike`; `paula` (a different Parent) is
rejected while it is claimed and succeeds after `alice` unclaims; the Child
`kid` is always rejected. -/
theorem claim_exclusive_until_unclaim_witness :
    exceptOk (bike_claimed.claim paula 9) = false ∧
    exceptOk (bike_unclaimed.claim paula 9) = true ∧
    exceptOk (bike.claim kid 9) = false :=
  claim_exclusive_until_unclaim bike bike_claimed bike_unclaimed bike
    alice paula kid 5 9 9 9 (by decide) (by decide) (by decide)
    (by rfl) (by rfl)

/-! ### C5 — idempotent re-claim -/

/-- C5: if `a`'s claim succeeded, claiming again succeeds and returns the
very same record — in particular `claimed_at` keeps the value set by the
first call, `is_claimed` stays true and `claimed_by` stays `a`. -/
theorem claim_idempotent_sticky_timestamp
    (w w1 : WishlistItem) (a : Profile) (t1 t2 : Nat)
    (h1 : w.claim a t1 = .ok w1) :
    w1.claim a t2 = .ok w1 ∧ w1.is_claimed = true ∧ w1.claimed_by = some a := by
  obtain ⟨hca, hw1⟩ := claim_eq_ok w a t1 w1 h1
  have hpa : a.is_parent = true := can_parent_claim_is_parent w a hca
  subst hw1
  refine ⟨?_, rfl, rfl⟩
  unfold WishlistItem.claim WishlistItem.can_parent_claim
  cases hat : w.claimed_at <;> simp [hpa, hat]

/-- Witness for C5: `alice` re-claims `bike_claimed` at a later time 9 and
the record is unchanged, timestamp still 5. -/
theorem claim_idempotent_sticky_timestamp_witness :
    bike_claimed.claim alice 9 = .ok bike_claimed ∧
    bike_claimed.is_claimed = true ∧ bike_claimed.claimed_by = some alice :=
  claim_idempotent_sticky_timestamp bike bike_claimed alice 5 9 (by rfl)

/-! ### C6 — single-claimer invariant -/

/-- C6: a successful `claim` sets `is_claimed` and `claimed_by` together
(the claimer is the single non-null `claimed_by`), a successful `unclaim`
clears them together, and both resulting records satisfy the claimed-implies
-non-null-claimer invariant. -/
theorem claim_unclaim_single_claimer_inv
    (w wa wb : WishlistItem) (a b : Profile) (t : Nat)
    (hca : w.claim a t = .ok wa) (hub : w.unclaim b = .ok wb) :
    wa.claim_inv = true ∧ wa.is_claimed = true ∧ wa.claimed_by = some a ∧
    wb.claim_inv = true ∧ wb.is_claimed = false ∧ wb.claimed_by = none := by
  obtain ⟨h1, hwa⟩ := claim_eq_ok w a t wa hca
  obtain ⟨h2, hwb⟩ := unclaim_eq_ok w b wb hub
  subst hwa; subst hwb
  exact ⟨rfl, rfl, rfl, rfl, rfl, rfl⟩

/-- Witness for C6: `alice` claims the open `bike` while `paula` unclaims it;
both results satisfy the invariant. -/
theorem claim_unclaim_single_claimer_inv_witness :
    bike_claimed.claim_inv = true ∧ bike_claimed.is_claimed = true ∧
    bike_claimed.claimed_by = some alice ∧
    bike.claim_inv = true ∧ bike.is_claimed = false ∧ bike.claimed_by = none :=
  claim_unclaim_single_claimer_inv bike bike_claimed bike alice paula 5
    (by rfl) (by rfl)

/-! ### C7 — frame effect of unclaim -/

/-- C7: a successful `unclaim` sets `is_claimed := false` and
`claimed_by := none` and changes nothing else: `claimed_at` (the historical
marker), owner, title, description, link, price estimate, image flag and all
three purchase fields are untouched. -/
theorem unclaim_frame (w w2 : WishlistItem) (v : Profile)
    (h : w.unclaim v = .ok w2) :
    w2.is_claimed = false ∧ w2.claimed_by = none ∧ w2.claimed_at = w.claimed_at ∧
    w2.title = w.title ∧ w2.description = w.description ∧ w2.link = w.link ∧
    w2.price_estimate = w.price_estimate ∧ w2.has_image = w.has_image ∧
    w2.profile = w.profile ∧ w2.is_purchased = w.is_purchased ∧
    w2.purchased_by = w.purchased_by ∧ w2.purchased_at = w.purchased_at := by
  obtain ⟨hp, hw2⟩ := unclaim_eq_ok w v w2 h
  subst hw2
  exact ⟨rfl, rfl, rfl, rfl, rfl, rfl, rfl, rfl, rfl, rfl, rfl, rfl⟩

/-- Witness for C7: `alice` unclaims `bike_claimed`; only the two claim
fields change and `claimed_at` keeps the value 5. -/
theorem unclaim_frame_witness :
    bike_unclaimed.is_claimed = false ∧ bike_unclaimed.claimed_by = none ∧
    bike_unclaimed.claimed_at = bike_claimed.claimed_at ∧
    bike_unclaimed.title = bike_claimed.title ∧
    bike_unclaimed.description = bike_claimed.description ∧
    bike_unclaimed.link = bike_claimed.link ∧
    bike_unclaimed.price_estimate = bike_claimed.price_estimate ∧
    bike_unclaimed.has_image = bike_claimed.has_image ∧
    bike_unclaimed.profile = bike_claimed.profile ∧
    bike_unclaimed.is_purchased = bike_claimed.is_purchased ∧
    bike_unclaimed.purchased_by = bike_claimed.purchased_by ∧
    bike_unclaimed.purchased_at = bike_claimed.purchased_at :=
  unclaim_frame bike_claimed bike_unclaimed alice (by rfl)

/-! ### C4 — parent slot assignment -/

/-- Modelled from the spec's words, for comparison with the source's
`Family.assign_parent_slot`: "if `parent1` empty, assign there; else if
`parent2` empty and the candidate is not already `parent1`, assign there;
else no-op." -/
def assign_parent_slot_spec (f : Family) (u : Nat) : Family :=
  match f.parent1, f.parent2 with
  | none, p2 => { parent1 := some u, parent2 := p2 }
  | some p1, none => if p1 ≠ u then ⟨some p1, some u⟩ else ⟨some p1, none⟩
  | some p1, some p2 => ⟨some p1, some p2⟩

/-- C4 counterexample: for a family whose `parent1` slot is open while user 7
already occupies `parent2`, `assign_parent_slot` with user 7 puts 7 into
`parent1` as well — user 7 then occupies both slots, violating both the
claimed "no-op when u already occupies a slot" gloss and the claimed
consequence (the in-memory result also violates the
`family_parent1_not_equal_parent2_or_null` check constraint, so the `save`
inside the operation is rejected by the database). -/
theorem assign_parent_slot_double_occupancy_counterexample :
    Family.assign_parent_slot ⟨none, some 7⟩ 7 = ⟨some 7, some 7⟩ ∧
    Family.slots_ok (Family.assign_parent_slot ⟨none, some 7⟩ 7) = false := by
  constructor <;> rfl

/-- C4 (amended): `assign_parent_slot` follows the spec's slot algorithm,
and — provided it is not the case that `parent1` is open while `u` already
occupies `parent2` — a family satisfying its parent1-not-equal-parent2 check
constraint still satisfies it after assignment, so no user occupies both
slots. -/
theorem assign_parent_slot_algorithm_no_double (f : Family) (u : Nat)
    (hpre : f.slots_ok = true)
    (hside : ¬(f.parent1 = none ∧ f.parent2 = some u)) :
    f.assign_parent_slot u = assign_parent_slot_spec f u ∧
    (f.assign_parent_slot u).slots_ok = true := by
  obtain ⟨p1, p2⟩ := f
  cases p1 with
  | none =>
    cases p2 with
    | none => exact ⟨rfl, rfl⟩
    | some q =>
      have hq : ¬q = u := fun h => hside ⟨rfl, by rw [h]⟩
      constructor
      · rfl
      · simp [Family.assign_parent_slot, Family.slots_ok]
        exact fun h => hq h.symm
  | some p =>
    cases p2 with
    | none =>
      by_cases hp : p = u
      · subst hp
        constructor
        · simp [Family.assign_parent_slot, assign_parent_slot_spec]
        · simp [Family.assign_parent_slot, Family.slots_ok]
      · constructor
        · simp [Family.assign_parent_slot, assign_parent_slot_spec, hp]
        · simp [Family.assign_parent_slot, Family.slots_ok, hp]
    | some q =>
      constructor
      · simp [Family.assign_parent_slot, assign_parent_slot_spec]
      · simpa [Family.assign_parent_slot, Family.slots_ok] using hpre

/-- Witness for C4 (amended): user 2 joins a family whose first slot is
taken by user 1; they land in `parent2` and the constraint still holds. -/
theorem assign_parent_slot_algorithm_no_double_witness :
    Family.assign_parent_slot ⟨some 1, none⟩ 2 =
      assign_parent_slot_spec ⟨some 1, none⟩ 2 ∧
    Family.slots_ok (Family.assign_parent_slot ⟨some 1, none⟩ 2) = true :=
  assign_parent_slot_algorithm_no_double ⟨some 1, none⟩ 2 (by decide)
    (by simp)

/-! ### C8 — February 29 handling in the next-occurrence calculators -/

/-- A profile whose stored birthday and anniversary fall on February 29. -/
def feb29_alice : Profile :=
  { alice with birthday := some ⟨2000, 2, 29⟩, anniversary := some ⟨2000, 2, 29⟩ }

/-- C8: the next-occurrence calculators are NOT total on February 29 inputs.
`next_birthday_date` and `next_anniversary_date` propagate `ValueError` from
`date.replace` in any non-leap year (here today = 2025-03-01), and even the
view helper `_next_occurrence`, which substitutes day 28 for the current
year, raises on its unprotected year-rollover `replace` when today is in a
leap year after February 29 (here today = 2024-03-01). -/
theorem next_date_feb29_raises :
    feb29_alice.next_birthday_date ⟨2025, 3, 1⟩ = .error () ∧
    feb29_alice.next_anniversary_date ⟨2025, 3, 1⟩ = .error () ∧
    next_occurrence (some ⟨2000, 2, 29⟩) ⟨2024, 3, 1⟩ = .error () := by
  refine ⟨rfl, rfl, rfl⟩
